import Mathlib

/-!
Verification of the TuneTogether real-time session synchronization engine.

Shallow embedding of the client code:
  * `syncToPosition`, `waitForDeviceRegistration`, `generateQueue`
    from frontend/src/contexts/SpotifyContext.jsx;
  * `leaveSession`, `sendMessage` guard logic from the SocketContext module;
  * the session-page handlers (`handleSendMessage`, the chat/membership
    socket listeners, `handleLeaveSession`, `handleDeleteSession`)
    from frontend/src/pages/StreamSongsPage.jsx.

External effects (fetch calls, the Spotify player, the recommendation API)
are modelled by explicit parameters: response statuses, device-list oracles
and API results are inputs, and the commands a function issues to the player
are collected in an output list.  Awaits and real-time delays are elided;
exceptions thrown by awaited calls are modelled only where the surrounding
control flow inspects them (caught-and-logged failures collapse to the value
the code continues with).
-/

namespace TuneTogether
/-- Commands the guest client issues to the external player / Web API.
`transfer` stands for one invocation of `transferPlayback` (the playback
transfer PUT); `play uri pos` for a PUT to the play endpoint with body
`{uris: [uri], position_ms: pos}`; `seek`, `resume`, `pause` for the
corresponding SDK calls. -/
inductive Cmd where
  | transfer : Cmd
  | play : String → Int → Cmd
  | seek : Int → Cmd
  | resume : Cmd
  | pause : Cmd
deriving DecidableEq

def Cmd.isPlay : Cmd → Bool
  | .play _ _ => true
  | _ => false

def Cmd.isSeek : Cmd → Bool
  | .seek _ => true
  | _ => false

def Cmd.isPlayPause : Cmd → Bool
  | .resume => true
  | .pause => true
  | _ => false

/-- The result of `player.getCurrentState()`: the current track id
(`state.track_window.current_track.id`, absent when there is no track),
the position in milliseconds and the paused flag.  A `null` state is
modelled as `Option.none` at the use sites. -/
structure PlayerState where
  trackId : Option String
  position : Int
  paused : Bool
deriving DecidableEq

/-- Status of the first play request in the track-change branch of
`syncToPosition`: `ok` (2xx), `notFound` (404, triggers the one retry),
or any other non-ok status (no retry). -/
inductive PlayStatus where
  | ok : PlayStatus
  | notFound : PlayStatus
  | otherError : PlayStatus
deriving DecidableEq

/-- `trackUri.split(':')[2]` — the track id extracted from a Spotify URI;
`none` models the `undefined` a short URI yields.  Splitting is done on
the character list so that the definition evaluates by kernel reduction. -/
def uriTrackId (uri : String) : Option String :=
  ((uri.toList.splitOn ':').map (fun cks => String.mk cks)).get? 2

/-- The play/pause reconciliation tail of `syncToPosition`:
`if (isPlaying && currentState?.paused) resume else if (!isPlaying &&
!currentState?.paused) pause`.  `currentState?.paused` is falsy when the
state is `null`, hence the `getD false`. -/
def ppSync (cs : Option PlayerState) (isPlaying : Bool) : List Cmd :=
  let paused := (cs.map (·.paused)).getD false
  if isPlaying && paused then [Cmd.resume]
  else if !isPlaying && !paused then [Cmd.pause]
  else []

/-- `syncToPosition(trackUri, positionMs, isPlaying)` (SpotifyContext.jsx,
guest drift correction), as the list of player commands it issues.

`ready` is the conjunction of the `player`, `deviceId` and `isReady`
guards.  `cs` is the awaited `player.getCurrentState()`.
`firstPlayStatus` is the response status of the first play request in the
track-change branch; on 404 the code transfers again and retries the play
once.  `retryTransferThrows` models the (uncaught) failure of that second
`transferPlayback`, which jumps to the outer catch and skips both the
retry play and the play/pause reconciliation; the first `transferPlayback`
sits in its own try/catch, so its failure cannot alter the trace. -/
def syncToPosition (ready : Bool) (cs : Option PlayerState) (trackUri : String)
    (positionMs : Int) (isPlaying : Bool) (firstPlayStatus : PlayStatus)
    (retryTransferThrows : Bool) : List Cmd :=
  if !ready then []
  else
    let currentTrackId := cs.bind (·.trackId)
    let trackId := uriTrackId trackUri
    if currentTrackId ≠ trackId then
      if firstPlayStatus = PlayStatus.notFound then
        if retryTransferThrows then
          [Cmd.transfer, Cmd.play trackUri positionMs, Cmd.transfer]
        else
          [Cmd.transfer, Cmd.play trackUri positionMs, Cmd.transfer,
            Cmd.play trackUri positionMs] ++ ppSync cs isPlaying
      else
        [Cmd.transfer, Cmd.play trackUri positionMs] ++ ppSync cs isPlaying
    else
      let currentPosition := (cs.map (·.position)).getD 0
      (if (currentPosition - positionMs).natAbs > 500
        then [Cmd.seek positionMs] else [])
        ++ ppSync cs isPlaying

/-- Attempt ceiling the `ready` listener passes to
`waitForDeviceRegistration` (SpotifyContext.jsx line 150). -/
def readyPollMaxAttempts : Nat := 15

/-- Fixed delay in milliseconds between polling attempts, as passed by the
`ready` listener.  Real time is not modelled; the constant records the
configuration. -/
def readyPollDelayMs : Nat := 1000

/-- The polling loop of `waitForDeviceRegistration`:
`for (attempt = 0; attempt < maxAttempts; attempt++)` querying the
device-list endpoint once per iteration.  `devices i` is the device-id
list the endpoint reports on attempt `i`.  The result pairs the success
flag with the number of device-list queries performed. -/
def waitLoop (devices : Nat → List String) (target : String) :
    Nat → Nat → Bool × Nat
  | _, 0 => (false, 0)
  | attempt, remaining + 1 =>
    if (devices attempt).contains target then (true, 1)
    else
      let rest := waitLoop devices target (attempt + 1) remaining
      (rest.1, rest.2 + 1)

/-- `waitForDeviceRegistration(targetDeviceId, maxAttempts, delayMs)`
(SpotifyContext.jsx): returns `false` immediately when the token or the
target device id is absent, otherwise polls the device list up to
`maxAttempts` times; a `false` result is the failed-registration outcome
the caller observes (the code logs the give-up warning and stops
polling).  The returned `Nat` counts the device-list queries made. -/
def waitForDeviceRegistration (hasToken : Bool) (target : Option String)
    (maxAttempts : Nat) (devices : Nat → List String) : Bool × Nat :=
  match hasToken, target with
  | true, some t => waitLoop devices t 0 maxAttempts
  | _, _ => (false, 0)

/-- State of the socket module (SocketContext): whether the `socket`
object exists, the `connected` flag, and the `currentSessionId` state. -/
structure SocketState where
  hasSocket : Bool
  connected : Bool
  currentSessionId : Option String
deriving DecidableEq

/-- `leaveSession(sessionId)` (SocketContext): when the socket is absent
or not connected the function returns at once (no error, nothing
emitted); otherwise it emits `leave_session` and the acknowledgment
callback sets `currentSessionId` to `null`.  The function never rejects,
so the result is just the successor state. -/
def leaveSession (st : SocketState) (_sessionId : String) : SocketState :=
  if !st.hasSocket || !st.connected then st
  else { st with currentSessionId := none }

/-- Kind tag of a displayed chat entry: the `type` field of the message
objects in StreamSongsPage (`'system'` roster notices, `'user'` chat
messages). -/
inductive MsgKind where
  | system : MsgKind
  | user : MsgKind
deriving DecidableEq

/-- One entry of the `messages` state of StreamSongsPage.  System entries
carry no `username` field in the source; the field is irrelevant for them
because every comparison checks the kind first. -/
structure Msg where
  kind : MsgKind
  username : String
  message : String
  timestamp : Int
deriving DecidableEq

/-- The duplicate test of the `chat:message` listener: same `'user'` kind,
same username, same text, and timestamps (as milliseconds) differing by
strictly less than 2000. -/
def matchesPending (u m : String) (ts : Int) (msg : Msg) : Bool :=
  msg.kind == MsgKind.user && msg.username == u && msg.message == m
    && (msg.timestamp - ts).natAbs < 2000

/-- The `socket.on('chat:message')` state update (StreamSongsPage): if
some displayed entry matches the incoming message as a pending duplicate,
every matching entry adopts the server timestamp; otherwise the incoming
message is appended.  `ts` is the resolved `data.timestamp || Date.now()`
in milliseconds. -/
def chatMessageHandler (prev : List Msg) (u m : String) (ts : Int) : List Msg :=
  if prev.any (matchesPending u m ts) then
    prev.map (fun msg =>
      if matchesPending u m ts msg then { msg with timestamp := ts } else msg)
  else prev ++ [Msg.mk MsgKind.user u m ts]

/-- A session record as far as the page state needs it. -/
structure SessionRec where
  id : String
deriving DecidableEq

/-- Local state of StreamSongsPage relevant to the claims: the current
session and song, the displayed message list, the socket module's
`currentSessionId` (shared through the context), the chat input box and
the error banner. -/
structure PageState where
  currentSession : Option SessionRec
  currentSong : Option SessionRec
  messages : List Msg
  socketSessionId : Option String
  messageInput : String
  errorMsg : Option String
deriving DecidableEq

/-- Modelled from the spec: `clearSession`, the SocketContext operation
StreamSongsPage destructures and calls to clear the channel's
current-session pointer.  It is absent from the SocketContext variant
captured under src/ (only its callers are present); per the spec's
session-membership contract it resets the current-session pointer. -/
def clearSession (st : PageState) : PageState :=
  { st with socketSessionId := none }

/-- The `chat:message` listener lifted to the page state. -/
def onChatMessage (st : PageState) (u m : String) (ts : Int) : PageState :=
  { st with messages := chatMessageHandler st.messages u m ts }

/-- `socket.on('session_updated')` (StreamSongsPage): merge the updates
into `currentSession` only when the event's session id equals the local
`currentSessionId`.  `applyUpdates` models the spread
`{...prev, ...data.updates}` (defined even when `prev` is `null`). -/
def sessionUpdatedHandler (st : PageState) (eventSessionId : String)
    (applyUpdates : Option SessionRec → SessionRec) : PageState :=
  if st.socketSessionId = some eventSessionId then
    { st with currentSession := some (applyUpdates st.currentSession) }
  else st

/-- `socket.on('user_joined')` (StreamSongsPage): unconditionally append
a system roster notice to the message list. -/
def userJoinedHandler (st : PageState) (username : String) (now : Int) :
    PageState :=
  { st with messages := st.messages
      ++ [Msg.mk MsgKind.system "" (username ++ " joined the session") now] }

/-- `socket.on('user_left')` (StreamSongsPage): unconditionally append a
system roster notice to the message list. -/
def userLeftHandler (st : PageState) (username : String) (now : Int) :
    PageState :=
  { st with messages := st.messages
      ++ [Msg.mk MsgKind.system "" (username ++ " left the session") now] }

/-- `messageInput.trim()`: strip leading and trailing whitespace.
Defined over the character list so that it evaluates by kernel
reduction. -/
def jsTrim (s : String) : String :=
  String.mk
    (((s.toList.dropWhile Char.isWhitespace).reverse.dropWhile
        Char.isWhitespace).reverse)

/-- `handleSendMessage` (StreamSongsPage): guard on empty input, missing
session or missing user; optimistically append the entry; `sendMessage`
throws exactly when the socket is absent or not connected (the
no-session case is excluded by the guard), in which case the optimistic
entry is removed again (`slice(0, -1)`) and the error banner is set;
on success the input box is cleared. -/
def handleSendMessage (st : PageState) (hasSocket connected : Bool)
    (user : Option String) (now : Int) : PageState :=
  match user with
  | none => st
  | some username =>
    if jsTrim st.messageInput = "" ∨ st.socketSessionId = none then st
    else
      let text := jsTrim st.messageInput
      let appended := { st with
        messages := st.messages ++ [Msg.mk MsgKind.user username text now] }
      if hasSocket && connected then { appended with messageInput := "" }
      else { appended with
        messages := appended.messages.dropLast,
        errorMsg := some "Socket not connected or no active session" }

/-- `handleLeaveSession` (StreamSongsPage): after the socket-level leave
(which clears the channel pointer only when connected) and the REST call
(`apiFails` tells whether it threw), both the success path and the catch
clear `currentSession`, `currentSong`, `messages` and the channel session
pointer; the catch additionally sets the error banner. -/
def handleLeaveSession (st : PageState) (hasSocket connected : Bool)
    (apiFails : Bool) : PageState :=
  match st.currentSession with
  | none => st
  | some _ =>
    let st1 :=
      if st.socketSessionId ≠ none ∧ (hasSocket && connected) = true then
        { st with socketSessionId := none }
      else st
    let cleared := clearSession { st1 with
      currentSession := none, currentSong := none, messages := [] }
    if apiFails then { cleared with errorMsg := some "Failed to leave session" }
    else cleared

/-- `handleDeleteSession` (StreamSongsPage): identical cleanup shape to
`handleLeaveSession`, guarded additionally by the `window.confirm`
dialog. -/
def handleDeleteSession (st : PageState) (hasSocket connected : Bool)
    (confirmed : Bool) (apiFails : Bool) : PageState :=
  match st.currentSession with
  | none => st
  | some _ =>
    if !confirmed then st
    else
      let st1 :=
        if st.socketSessionId ≠ none ∧ (hasSocket && connected) = true then
          { st with socketSessionId := none }
        else st
      let cleared := clearSession { st1 with
        currentSession := none, currentSong := none, messages := [] }
      if apiFails then
        { cleared with errorMsg := some "Failed to delete session" }
      else cleared

/-- The seed-track argument of `generateQueue`; `id` is `none` when the
`id` field is missing (the `!seedTrack.id` guard also treats the empty
string as missing). -/
structure SeedTrack where
  id : Option String
deriving DecidableEq

/-- A track object as returned by the recommendation endpoint, with the
fields `generateQueue` reads: `artistNames` is the list of
`artists[i].name`, `albumImageUrls` the list of `album.images[i].url`. -/
structure RecTrack where
  id : String
  name : String
  artistNames : List String
  albumName : Option String
  albumImageUrls : List String
  uri : String
  duration_ms : Int
deriving DecidableEq

/-- A mapped queue entry as `generateQueue` produces it. -/
structure QueueTrack where
  id : String
  name : String
  artist : String
  albumName : Option String
  image : Option String
  uri : String
  duration_ms : Int
deriving DecidableEq

/-- JavaScript `a || b` on optional strings: `b` when `a` is absent or
the empty string. -/
def jsOrString (a b : Option String) : Option String :=
  match a with
  | some s => if s = "" then b else some s
  | none => b

/-- The regex guard `/^[a-zA-Z0-9]+$/.test(id)`: non-empty and every
character an ASCII letter or digit. -/
def isAlnumId (s : String) : Bool :=
  match s.toList with
  | [] => false
  | cks => cks.all (fun c => c.isAlpha || c.isDigit)

/-- The per-track mapping inside `generateQueue`:
`artists?.[0]?.name || 'Unknown Artist'` and
`album?.images?.[0]?.url || album?.images?.[1]?.url`. -/
def mapRecTrack (t : RecTrack) : QueueTrack :=
  { id := t.id, name := t.name,
    artist := match t.artistNames.get? 0 with
      | some s => if s = "" then "Unknown Artist" else s
      | none => "Unknown Artist",
    albumName := t.albumName,
    image := jsOrString (t.albumImageUrls.get? 0) (t.albumImageUrls.get? 1),
    uri := t.uri, duration_ms := t.duration_ms }

/-- `generateQueue(seedTrack, limit)` (SpotifyContext.jsx).  `apiResult`
is the outcome of `api.getSpotifyRecommendations`: `Except.error` when
the call throws (caught by the surrounding try, which returns `[]`),
`Except.ok none` when the response is null or its `tracks` field is
missing or not an array, `Except.ok (some tracks)` otherwise.  The
function is total — every failure path returns the empty list, so the
caller of playback never sees an exception. -/
def generateQueue (seedTrack : Option SeedTrack)
    (apiResult : Except String (Option (List RecTrack))) : List QueueTrack :=
  match seedTrack with
  | none => []
  | some seed =>
    match seed.id with
    | none => []
    | some sid =>
      if sid = "" then []
      else if !isAlnumId sid then []
      else
        match apiResult with
        | .error _ => []
        | .ok none => []
        | .ok (some tracks) =>
          if tracks.isEmpty then [] else tracks.map mapRecTrack

/-- The failure condition on the seed: missing seed object, missing or
empty id (falsy guard), or an id rejected by the regex guard. -/
def seedInvalid (seedTrack : Option SeedTrack) : Bool :=
  match seedTrack with
  | none => true
  | some seed =>
    match seed.id with
    | none => true
    | some sid => sid == "" || !isAlnumId sid

lemma ppSync_cases (cs : Option PlayerState) (p : Bool) :
    ppSync cs p = [] ∨ ppSync cs p = [Cmd.resume] ∨ ppSync cs p = [Cmd.pause] := by
  simp only [ppSync]
  split
  · exact Or.inr (Or.inl rfl)
  · split
    · exact Or.inr (Or.inr rfl)
    · exact Or.inl rfl

lemma ppSync_filter_isPlay (cs : Option PlayerState) (p : Bool) :
    (ppSync cs p).filter Cmd.isPlay = [] := by
  rcases ppSync_cases cs p with h | h | h <;>
    rw [h] <;> simp [Cmd.isPlay]

lemma ppSync_filter_isSeek (cs : Option PlayerState) (p : Bool) :
    (ppSync cs p).filter Cmd.isSeek = [] := by
  rcases ppSync_cases cs p with h | h | h <;>
    rw [h] <;> simp [Cmd.isSeek]

/-- Claim C1: for every incoming session-update whose track identifier
differs from the track currently playing on the guest's player (any prior
state: playing, paused, or idle/`null`), and whose play request is not
answered with the transient 404 retry condition, `syncToPosition` issues
exactly one play command, carrying the reported track URI and the reported
position. -/
theorem syncToPosition_track_change_single_play
    (cs : Option PlayerState) (trackUri : String) (positionMs : Int)
    (isPlaying : Bool) (st : PlayStatus) (rt : Bool)
    (hdiff : cs.bind (·.trackId) ≠ uriTrackId trackUri)
    (hst : st ≠ PlayStatus.notFound) :
    (syncToPosition true cs trackUri positionMs isPlaying st rt).filter
        Cmd.isPlay
      = [Cmd.play trackUri positionMs] := by
  simp only [syncToPosition, Bool.not_true, Bool.false_eq_true, if_false,
    if_pos hdiff, if_neg hst]
  simp [Cmd.isPlay, ppSync_filter_isPlay]

/-- Witness for C1: a concrete idle player and a fresh track URI. -/
theorem syncToPosition_track_change_single_play_witness :
    ((none : Option PlayerState).bind (·.trackId) ≠
        uriTrackId "spotify:track:abc123")
      ∧ (PlayStatus.ok ≠ PlayStatus.notFound)
      ∧ (syncToPosition true none "spotify:track:abc123" 1234 true
          PlayStatus.ok false).filter Cmd.isPlay
        = [Cmd.play "spotify:track:abc123" 1234] :=
  ⟨by decide, by decide,
    syncToPosition_track_change_single_play none "spotify:track:abc123"
      1234 true PlayStatus.ok false (by decide) (by decide)⟩

/-- Claim C2: for every incoming session-update whose track identifier
equals the locally playing track, `syncToPosition` issues a seek to the
reported position if and only if the absolute difference between the
local player position and the reported position exceeds 500 ms; at most
500 ms of drift issues no seek. -/
theorem syncToPosition_same_track_seek_iff
    (s : PlayerState) (trackUri : String) (positionMs : Int)
    (isPlaying : Bool) (st : PlayStatus) (rt : Bool)
    (hsame : s.trackId = uriTrackId trackUri) :
    (syncToPosition true (some s) trackUri positionMs isPlaying st rt).filter
        Cmd.isSeek
      = if (s.position - positionMs).natAbs > 500
          then [Cmd.seek positionMs] else [] := by
  have hnd : ¬((some s).bind (·.trackId) ≠ uriTrackId trackUri) := by
    simp [Option.bind, hsame]
  simp only [syncToPosition, Bool.not_true, Bool.false_eq_true, if_false,
    if_neg hnd, Option.map_some', Option.getD_some]
  by_cases hgt : (s.position - positionMs).natAbs > 500
  · rw [if_pos hgt]
    simp [Cmd.isSeek, ppSync_filter_isSeek]
  · rw [if_neg hgt]
    simp [ppSync_filter_isSeek]

/-- Witness for C2: same track, 600 ms of drift, one seek issued. -/
theorem syncToPosition_same_track_seek_iff_witness :
    (PlayerState.mk (some "abc123") 42300 false).trackId
        = uriTrackId "spotify:track:abc123"
      ∧ (syncToPosition true (some (PlayerState.mk (some "abc123") 42300 false))
          "spotify:track:abc123" 42900 true PlayStatus.ok false).filter Cmd.isSeek
        = if ((42300 : Int) - 42900).natAbs > 500
            then [Cmd.seek 42900] else [] :=
  ⟨by decide,
    syncToPosition_same_track_seek_iff
      (PlayerState.mk (some "abc123") 42300 false) "spotify:track:abc123"
      42900 true PlayStatus.ok false (by decide)⟩

/-- Claim C3: every invocation of the guest sync operation (on a
non-`null` local state, when no uncaught transfer failure aborts the run)
ends with an independent play/pause reconciliation after the
track/position handling: reported playing with local paused issues
resume, reported not-playing with local playing issues pause, and the
two agreeing cases issue neither. -/
theorem syncToPosition_play_pause_reconcile
    (s : PlayerState) (trackUri : String) (positionMs : Int)
    (isPlaying : Bool) (st : PlayStatus) (rt : Bool)
    (hnoexc : ¬(st = PlayStatus.notFound ∧ rt = true)) :
    ∃ pre : List Cmd,
      syncToPosition true (some s) trackUri positionMs isPlaying st rt
          = pre ++ (if isPlaying && s.paused then [Cmd.resume]
              else if !isPlaying && !s.paused then [Cmd.pause] else [])
        ∧ pre.all (fun c => !c.isPlayPause) = true := by
  have hpp : ppSync (some s) isPlaying
      = (if isPlaying && s.paused then [Cmd.resume]
          else if !isPlaying && !s.paused then [Cmd.pause] else []) := by
    simp [ppSync]
  simp only [syncToPosition, Bool.not_true, Bool.false_eq_true, if_false,
    Option.map_some', Option.getD_some]
  by_cases hdiff : (some s).bind (·.trackId) ≠ uriTrackId trackUri
  · rw [if_pos hdiff]
    by_cases hst : st = PlayStatus.notFound
    · cases rt with
      | true => exact absurd ⟨hst, rfl⟩ hnoexc
      | false =>
        rw [if_pos hst, if_neg Bool.false_ne_true, hpp]
        exact ⟨[Cmd.transfer, Cmd.play trackUri positionMs, Cmd.transfer,
          Cmd.play trackUri positionMs], rfl, by simp [Cmd.isPlayPause]⟩
    · rw [if_neg hst, hpp]
      exact ⟨[Cmd.transfer, Cmd.play trackUri positionMs], rfl,
        by simp [Cmd.isPlayPause]⟩
  · rw [if_neg hdiff]
    by_cases hgt : (s.position - positionMs).natAbs > 500
    · rw [if_pos hgt, hpp]
      exact ⟨[Cmd.seek positionMs], rfl, by simp [Cmd.isPlayPause]⟩
    · rw [if_neg hgt, hpp]
      exact ⟨[], rfl, by simp⟩

/-- Witness for C3: reported playing, local paused on the same track, a
resume is issued after the (empty) track handling. -/
theorem syncToPosition_play_pause_reconcile_witness :
    (¬(PlayStatus.ok = PlayStatus.notFound ∧ false = true))
      ∧ ∃ pre : List Cmd,
          syncToPosition true (some (PlayerState.mk (some "abc123") 0 true))
              "spotify:track:abc123" 0 true PlayStatus.ok false
            = pre ++ (if true && (PlayerState.mk (some "abc123") 0 true).paused
                then [Cmd.resume]
                else if !true && !(PlayerState.mk (some "abc123") 0 true).paused
                  then [Cmd.pause] else [])
            ∧ pre.all (fun c => !c.isPlayPause) = true :=
  ⟨by decide,
    syncToPosition_play_pause_reconcile
      (PlayerState.mk (some "abc123") 0 true) "spotify:track:abc123"
      0 true PlayStatus.ok false (by decide)⟩

lemma waitLoop_queries_le (devices : Nat → List String) (target : String) :
    ∀ remaining attempt, (waitLoop devices target attempt remaining).2 ≤ remaining := by
  intro remaining
  induction remaining with
  | zero => intro attempt; simp [waitLoop]
  | succ n ih =>
    intro attempt
    simp only [waitLoop]
    split
    · simp
    · simpa using ih (attempt + 1)

lemma waitLoop_never_found (devices : Nat → List String) (target : String) :
    ∀ remaining attempt,
      (∀ i, attempt ≤ i → i < attempt + remaining →
        (devices i).contains target = false) →
      waitLoop devices target attempt remaining = (false, remaining) := by
  intro remaining
  induction remaining with
  | zero => intro attempt _; simp [waitLoop]
  | succ n ih =>
    intro attempt h
    have h0 : (devices attempt).contains target = false :=
      h attempt (Nat.le_refl _) (by omega)
    simp only [waitLoop, h0, Bool.false_eq_true, if_false]
    rw [ih (attempt + 1) (fun i h1 h2 => h i (by omega) (by omega))]

/-- Claim C4: device-registration polling performs at most the configured
number of device-list queries (15 attempts at 1000 ms delay, per the
`ready` handler) and terminates; when the device identifier never appears
in any of the polled device lists, the result is the failed outcome after
exactly the attempt ceiling, never an unbounded retry. -/
theorem waitForDeviceRegistration_bounded
    (devices : Nat → List String) (t : String) :
    (waitForDeviceRegistration true (some t) readyPollMaxAttempts devices).2
        ≤ readyPollMaxAttempts
      ∧ ((∀ i, i < readyPollMaxAttempts → (devices i).contains t = false) →
          waitForDeviceRegistration true (some t) readyPollMaxAttempts devices
            = (false, readyPollMaxAttempts)) := by
  constructor
  · exact waitLoop_queries_le devices t readyPollMaxAttempts 0
  · intro h
    exact waitLoop_never_found devices t readyPollMaxAttempts 0
      (fun i _ h2 => h i (by simpa using h2))

/-- Witness for C4: a device list in which the device never appears;
polling stops after exactly 15 queries with the failed outcome. -/
theorem waitForDeviceRegistration_bounded_witness :
    ((waitForDeviceRegistration true (some "dev1") readyPollMaxAttempts
        (fun _ => [])).2 ≤ readyPollMaxAttempts)
      ∧ waitForDeviceRegistration true (some "dev1") readyPollMaxAttempts
          (fun _ => []) = (false, readyPollMaxAttempts) :=
  ⟨(waitForDeviceRegistration_bounded (fun _ => []) "dev1").1,
    (waitForDeviceRegistration_bounded (fun _ => []) "dev1").2
      (fun _ _ => rfl)⟩

/-- Counterexample for C5: calling `leaveSession` while disconnected with
a session pointer still set leaves `currentSessionId` untouched — it does
not become `null` as the claim states. -/
theorem leaveSession_disconnected_counterexample :
    (leaveSession (SocketState.mk false false (some "s1")) "s1").currentSessionId
      ≠ none := by
  decide

/-- Claim C5 (amended): for every call to `leaveSession` while the channel
is disconnected (socket absent or not connected), the call returns without
error and leaves the socket-local state — including the current-session
pointer — unchanged; clearing of local session state on leave is performed
by the page-level caller, not by this function. -/
theorem leaveSession_disconnected_noop
    (st : SocketState) (sessionId : String)
    (hdis : st.hasSocket = false ∨ st.connected = false) :
    leaveSession st sessionId = st := by
  unfold leaveSession
  rcases hdis with h | h <;> rw [h] <;> simp

/-- Witness for C5 (amended): a disconnected state passes through
`leaveSession` unchanged. -/
theorem leaveSession_disconnected_noop_witness :
    ((SocketState.mk false false (some "s1")).hasSocket = false
        ∨ (SocketState.mk false false (some "s1")).connected = false)
      ∧ leaveSession (SocketState.mk false false (some "s1")) "s1"
          = SocketState.mk false false (some "s1") :=
  ⟨Or.inl rfl,
    leaveSession_disconnected_noop (SocketState.mk false false (some "s1"))
      "s1" (Or.inl rfl)⟩

/-- Counterexample for C6: an optimistic "hello" at local time 0 followed
by the authoritative echo at timestamp 2000 — a difference of exactly
2000 ms, which is within the claimed 2000 ms window — is appended as a
second entry: the handler's window is strict (`< 2000`), so the display
holds two entries for the message, not one. -/
theorem chat_echo_window_counterexample :
    (((0 : Int) - 2000).natAbs ≤ 2000)
      ∧ ((onChatMessage
            (handleSendMessage
              (PageState.mk (some (SessionRec.mk "s1")) (some (SessionRec.mk "s1"))
                [] (some "s1") "hello" none)
              true true (some "alice") 0)
            "alice" "hello" 2000).messages.filter
          (fun msg => msg.kind == MsgKind.user && msg.username == "alice"
            && msg.message == "hello")).length = 2 := by
  decide

/-- Claim C6 (amended): for every locally sent chat message followed by an
incoming authoritative echo with the same sender identity, the same text,
and a timestamp strictly within 2000 ms of the optimistic entry (absolute
difference < 2000 ms, the handler's strict window), the displayed message
list contains exactly one entry for that message, and that entry carries
the server's timestamp — the optimistic entry is replaced, not
duplicated. -/
lemma adoptTimestamp_map_no_match (u m : String) (ts : Int) :
    ∀ l : List Msg, (∀ msg ∈ l, matchesPending u m ts msg = false) →
      l.map (fun msg =>
          if matchesPending u m ts msg then { msg with timestamp := ts }
          else msg)
        = l := by
  intro l
  induction l with
  | nil => intro _; rfl
  | cons a l ih =>
    intro hother
    have ha : matchesPending u m ts a = false :=
      hother a (List.mem_cons_self a l)
    simp only [List.map_cons, ha, Bool.false_eq_true, if_false]
    rw [ih (fun msg hm => hother msg (List.mem_cons_of_mem a hm))]

theorem chat_echo_replaces_optimistic
    (prev : List Msg) (u m : String) (t0 ts : Int)
    (hwin : (t0 - ts).natAbs < 2000)
    (hother : ∀ msg ∈ prev, matchesPending u m ts msg = false) :
    chatMessageHandler (prev ++ [Msg.mk MsgKind.user u m t0]) u m ts
      = prev ++ [Msg.mk MsgKind.user u m ts] := by
  have hopt : matchesPending u m ts (Msg.mk MsgKind.user u m t0) = true := by
    simp [matchesPending, hwin]
  have hany : ((prev ++ [Msg.mk MsgKind.user u m t0]).any
      (matchesPending u m ts)) = true := by
    rw [List.any_append]
    simp [hopt]
  unfold chatMessageHandler
  rw [if_pos hany, List.map_append]
  rw [adoptTimestamp_map_no_match u m ts prev hother]
  simp [hopt]

/-- Witness for C6 (amended): echo 1500 ms after the optimistic entry,
which is replaced in place with the server timestamp. -/
theorem chat_echo_replaces_optimistic_witness :
    (((0 : Int) - 1500).natAbs < 2000)
      ∧ chatMessageHandler ([] ++ [Msg.mk MsgKind.user "alice" "hello" 0])
          "alice" "hello" 1500
        = [] ++ [Msg.mk MsgKind.user "alice" "hello" 1500] :=
  ⟨by decide,
    chat_echo_replaces_optimistic [] "alice" "hello" 0 1500 (by decide)
      (fun msg hm => absurd hm (List.not_mem_nil msg))⟩

/-- Claim C10: for every chat send in which the channel `sendMessage`
throws (socket absent or not connected; the no-session case never reaches
the send because of the guard), the optimistic entry appended beforehand
is removed again, so the displayed message list after the failed send
equals the list before the send. -/
theorem send_failure_restores_messages
    (st : PageState) (hasSocket connected : Bool) (user : Option String)
    (now : Int) (hfail : (hasSocket && connected) = false) :
    (handleSendMessage st hasSocket connected user now).messages
      = st.messages := by
  rcases user with _ | username
  · rfl
  · simp only [handleSendMessage]
    split
    · rfl
    · simp only [hfail, Bool.false_eq_true, if_false]
      exact List.dropLast_concat ..

/-- Witness for C10: a disconnected send leaves the prior message list
(one existing entry) intact. -/
theorem send_failure_restores_messages_witness :
    ((false && false) = false)
      ∧ (handleSendMessage
          (PageState.mk (some (SessionRec.mk "s1")) none
            [Msg.mk MsgKind.user "bob" "yo" 5] (some "s1") "hi" none)
          false false (some "alice") 10).messages
        = [Msg.mk MsgKind.user "bob" "yo" 5] :=
  ⟨rfl,
    send_failure_restores_messages
      (PageState.mk (some (SessionRec.mk "s1")) none
        [Msg.mk MsgKind.user "bob" "yo" 5] (some "s1") "hi" none)
      false false (some "alice") 10 rfl⟩

/-- Counterexample for C9: with no current session (`currentSessionId`
null, empty message list), a `user_joined` and a `user_left` event each
append a system notice — the message list does not stay unchanged, so the
events are not discarded. -/
theorem membership_no_session_counterexample :
    ((userJoinedHandler (PageState.mk none none [] none "" none) "bob" 0).messages
        ≠ (PageState.mk none none [] none "" none).messages)
      ∧ ((userLeftHandler (PageState.mk none none [] none "" none) "bob" 0).messages
        ≠ (PageState.mk none none [] none "" none).messages) := by
  decide

/-- Claim C9 (amended): while the client has no current session
(`currentSessionId` null), a `session_updated` event is discarded (all
local state unchanged), but `user_joined` and `user_left` events are not:
each appends exactly one system roster notice to the message list — the
current-session record itself stays unchanged. -/
theorem membership_no_session_amended
    (st : PageState) (sid : String)
    (applyUpdates : Option SessionRec → SessionRec)
    (uname : String) (now : Int)
    (hnone : st.socketSessionId = none) :
    sessionUpdatedHandler st sid applyUpdates = st
      ∧ (userJoinedHandler st uname now).currentSession = st.currentSession
      ∧ (userJoinedHandler st uname now).messages
          = st.messages
            ++ [Msg.mk MsgKind.system "" (uname ++ " joined the session") now]
      ∧ (userLeftHandler st uname now).currentSession = st.currentSession
      ∧ (userLeftHandler st uname now).messages
          = st.messages
            ++ [Msg.mk MsgKind.system "" (uname ++ " left the session") now] := by
  refine ⟨?_, rfl, rfl, rfl, rfl⟩
  simp [sessionUpdatedHandler, hnone]

/-- Witness for C9 (amended): the concrete no-session state of the
counterexample, with a `session_updated` event discarded and the roster
notices appended. -/
theorem membership_no_session_amended_witness :
    ((PageState.mk none none [] none "" none).socketSessionId = none)
      ∧ sessionUpdatedHandler (PageState.mk none none [] none "" none) "s1"
          (fun _ => SessionRec.mk "s1")
        = PageState.mk none none [] none "" none
      ∧ (userJoinedHandler (PageState.mk none none [] none "" none)
          "bob" 0).messages
        = [] ++ [Msg.mk MsgKind.system "" ("bob" ++ " joined the session") 0] :=
  ⟨rfl,
    (membership_no_session_amended (PageState.mk none none [] none "" none)
      "s1" (fun _ => SessionRec.mk "s1") "bob" 0 rfl).1,
    (membership_no_session_amended (PageState.mk none none [] none "" none)
      "s1" (fun _ => SessionRec.mk "s1") "bob" 0 rfl).2.2.1⟩

/-- Claim C8: every execution of the leave-session and (confirmed)
delete-session operations — whether the REST call succeeds or throws —
ends with the current session, current song, message list and channel
session pointer all cleared. -/
theorem leave_delete_always_clear
    (st : PageState) (hasSocket connected apiFails confirmed : Bool)
    (hsess : st.currentSession ≠ none) :
    ((handleLeaveSession st hasSocket connected apiFails).currentSession = none
      ∧ (handleLeaveSession st hasSocket connected apiFails).currentSong = none
      ∧ (handleLeaveSession st hasSocket connected apiFails).messages = []
      ∧ (handleLeaveSession st hasSocket connected apiFails).socketSessionId
          = none)
    ∧ (confirmed = true →
        (handleDeleteSession st hasSocket connected confirmed
            apiFails).currentSession = none
        ∧ (handleDeleteSession st hasSocket connected confirmed
            apiFails).currentSong = none
        ∧ (handleDeleteSession st hasSocket connected confirmed
            apiFails).messages = []
        ∧ (handleDeleteSession st hasSocket connected confirmed
            apiFails).socketSessionId = none) := by
  obtain ⟨cs, csong, ms, ssid, mi, em⟩ := st
  rcases cs with _ | c
  · exact absurd rfl hsess
  · constructor
    · simp only [handleLeaveSession, clearSession]
      split <;> split <;> simp
    · intro hc
      rw [hc]
      simp only [handleDeleteSession, clearSession, Bool.not_true,
        Bool.false_eq_true, if_false]
      split <;> split <;> simp

/-- Witness for C8: a fully populated in-session state, disconnected
socket and a failing REST call still end fully cleared, for both leave
and confirmed delete. -/
theorem leave_delete_always_clear_witness :
    ((PageState.mk (some (SessionRec.mk "s1")) (some (SessionRec.mk "s1"))
        [Msg.mk MsgKind.user "bob" "yo" 5] (some "s1") "draft"
        none).currentSession ≠ none)
      ∧ ((handleLeaveSession
            (PageState.mk (some (SessionRec.mk "s1")) (some (SessionRec.mk "s1"))
              [Msg.mk MsgKind.user "bob" "yo" 5] (some "s1") "draft" none)
            false false true).currentSession = none
          ∧ (handleLeaveSession
              (PageState.mk (some (SessionRec.mk "s1")) (some (SessionRec.mk "s1"))
                [Msg.mk MsgKind.user "bob" "yo" 5] (some "s1") "draft" none)
              false false true).currentSong = none
          ∧ (handleLeaveSession
              (PageState.mk (some (SessionRec.mk "s1")) (some (SessionRec.mk "s1"))
                [Msg.mk MsgKind.user "bob" "yo" 5] (some "s1") "draft" none)
              false false true).messages = []
          ∧ (handleLeaveSession
              (PageState.mk (some (SessionRec.mk "s1")) (some (SessionRec.mk "s1"))
                [Msg.mk MsgKind.user "bob" "yo" 5] (some "s1") "draft" none)
              false false true).socketSessionId = none)
      ∧ ((handleDeleteSession
            (PageState.mk (some (SessionRec.mk "s1")) (some (SessionRec.mk "s1"))
              [Msg.mk MsgKind.user "bob" "yo" 5] (some "s1") "draft" none)
            false false true true).currentSession = none) :=
  ⟨fun h => Option.noConfusion h,
    (leave_delete_always_clear
      (PageState.mk (some (SessionRec.mk "s1")) (some (SessionRec.mk "s1"))
        [Msg.mk MsgKind.user "bob" "yo" 5] (some "s1") "draft" none)
      false false true true (fun h => Option.noConfusion h)).1,
    ((leave_delete_always_clear
      (PageState.mk (some (SessionRec.mk "s1")) (some (SessionRec.mk "s1"))
        [Msg.mk MsgKind.user "bob" "yo" 5] (some "s1") "draft" none)
      false false true true (fun h => Option.noConfusion h)).2 rfl).1⟩

/-- Claim C7: `generateQueue` is a total function (it returns normally on
every input, never propagating an exception): every failure path — a
missing or malformed seed track, a throwing recommendation call, a null
or trackless response, an empty track list — returns the empty sequence,
and the success path returns the mapped recommended-track list. -/
theorem generateQueue_total_safe
    (seedTrack : Option SeedTrack)
    (apiResult : Except String (Option (List RecTrack))) :
    (seedInvalid seedTrack = true → generateQueue seedTrack apiResult = [])
      ∧ (∀ e, apiResult = Except.error e →
          generateQueue seedTrack apiResult = [])
      ∧ (apiResult = Except.ok none → generateQueue seedTrack apiResult = [])
      ∧ (apiResult = Except.ok (some []) →
          generateQueue seedTrack apiResult = [])
      ∧ (∀ sid tracks, seedTrack = some (SeedTrack.mk (some sid)) →
          seedInvalid seedTrack = false →
          apiResult = Except.ok (some tracks) → tracks ≠ [] →
          generateQueue seedTrack apiResult = tracks.map mapRecTrack) := by
  refine ⟨?_, ?_, ?_, ?_, ?_⟩
  · intro h
    rcases seedTrack with _ | ⟨_ | sid⟩
    · rfl
    · rfl
    · simp only [seedInvalid, Bool.or_eq_true, beq_iff_eq,
        Bool.not_eq_true'] at h
      rcases h with h | h
      · simp [generateQueue, h]
      · by_cases hsid : sid = ""
        · simp [generateQueue, hsid]
        · simp [generateQueue, hsid, h]
  · intro e he
    subst he
    rcases seedTrack with _ | ⟨_ | sid⟩
    · rfl
    · rfl
    · simp only [generateQueue]
      split <;> try rfl
      split <;> rfl
  · intro he
    subst he
    rcases seedTrack with _ | ⟨_ | sid⟩
    · rfl
    · rfl
    · simp only [generateQueue]
      split <;> try rfl
      split <;> rfl
  · intro he
    subst he
    rcases seedTrack with _ | ⟨_ | sid⟩
    · rfl
    · rfl
    · simp only [generateQueue]
      split <;> try rfl
      split <;> rfl
  · intro sid tracks hseed hvalid happi hne
    subst hseed
    subst happi
    simp only [seedInvalid, Bool.or_eq_false_iff, beq_eq_false_iff_ne,
      Bool.not_eq_false'] at hvalid
    obtain ⟨h1, h2⟩ := hvalid
    simp [generateQueue, h1, h2, hne]

/-- Witness for C7: one valid seed and one returned track, mapped into
the queue entry. -/
theorem generateQueue_total_safe_witness :
    (seedInvalid (some (SeedTrack.mk (some "abc9"))) = false)
      ∧ ((RecTrack.mk "t1" "Song" ["Artist"] none [] "spotify:track:t1"
          200000) :: []) ≠ []
      ∧ generateQueue (some (SeedTrack.mk (some "abc9")))
          (Except.ok (some [RecTrack.mk "t1" "Song" ["Artist"] none []
            "spotify:track:t1" 200000]))
        = [RecTrack.mk "t1" "Song" ["Artist"] none [] "spotify:track:t1"
            200000].map mapRecTrack :=
  ⟨by decide, by decide,
    (generateQueue_total_safe (some (SeedTrack.mk (some "abc9")))
        (Except.ok (some [RecTrack.mk "t1" "Song" ["Artist"] none []
          "spotify:track:t1" 200000]))).2.2.2.2
      "abc9"
      [RecTrack.mk "t1" "Song" ["Artist"] none [] "spotify:track:t1" 200000]
      rfl (by decide) rfl (by decide)⟩

end TuneTogether
